import Mathlib

/-!
Verification of the drama workflow-orchestration core against its
natural-language specification. The Lean definitions below are a shallow
embedding of the Python sources: drama/manager.py (workflow status),
drama/core/docker/registry.py (operator registry), drama/core/docker/run.py
(Docker run sandbox), drama/core/docker/exec.py (generic task executor) and
drama/worker/monitor.py (workflow monitoring).
-/

namespace Drama

/-! ### Task status (drama/models/task.py, modelled from the spec) -/

/-- Modelled from the spec: the module drama/models/task.py that declares the
TaskStatus constants is not part of the sources; the spec fixes the status
domain as PENDING, RUNNING, DONE and FAILED. The constants are only compared
for equality by the code under verification. -/
inductive TaskStatus where
  | PENDING
  | RUNNING
  | DONE
  | FAILED
deriving DecidableEq, Repr, Inhabited

/-! ### Workflow aggregate status (drama/manager.py) -/

/-- Embedding of get_status from drama/manager.py. The Python function
receives the set of task statuses; the set is represented here as a
deduplicated list, matching the set comprehension in WorkflowManager.list_all.
If the set has exactly one element that element is returned; otherwise FAILED
is returned when present, and RUNNING otherwise. -/
def get_status (values : List TaskStatus) : TaskStatus :=
  if values.length = 1 then values.headI
  else if TaskStatus.FAILED ∈ values then TaskStatus.FAILED
  else TaskStatus.RUNNING

/-- Aggregate workflow status as computed in WorkflowManager.list_all:
get_status applied to the set of statuses of the constituent tasks. -/
def workflowStatus (tasks : List TaskStatus) : TaskStatus :=
  get_status tasks.dedup

/-- A list without duplicates whose members all equal s, with s a member,
is the singleton list of s. -/
theorem nodup_all_eq {α : Type} (l : List α) (s : α) (hn : l.Nodup)
    (hs : s ∈ l) (h : ∀ t ∈ l, t = s) : l = [s] := by
  cases l with
  | nil => cases hs
  | cons a t =>
    have ha : a = s := h a (List.mem_cons_self a t)
    subst ha
    have ht : t = [] := by
      cases t with
      | nil => rfl
      | cons b u =>
        have hb : b = a := h b (List.mem_cons_of_mem a (List.mem_cons_self b u))
        exact absurd (hb ▸ List.mem_cons_self b u) (List.nodup_cons.mp hn).1
    rw [ht]

/-- If every member of a nonempty list equals s then its dedup is [s]. -/
theorem dedup_all_eq (tasks : List TaskStatus) (s : TaskStatus)
    (hne : tasks ≠ []) (h : ∀ t ∈ tasks, t = s) : tasks.dedup = [s] := by
  apply nodup_all_eq _ s tasks.nodup_dedup
  · rcases List.exists_mem_of_ne_nil tasks hne with ⟨x, hx⟩
    have := h x hx
    subst this
    exact List.mem_dedup.mpr hx
  · intro t ht
    exact h t (List.mem_dedup.mp ht)

/-- C2: over a nonempty list of constituent task statuses, the aggregate
workflow status is the unique shared status when all tasks agree; otherwise it
is FAILED when some task is FAILED and RUNNING otherwise. The three concrete
examples from the spec are included: all DONE gives DONE, DONE and RUNNING
gives RUNNING, and a FAILED task gives FAILED. -/
theorem C2_aggregate_status (tasks : List TaskStatus) (hne : tasks ≠ []) :
    (∀ s, (∀ t ∈ tasks, t = s) → workflowStatus tasks = s)
    ∧ ((¬ ∃ s, ∀ t ∈ tasks, t = s) → TaskStatus.FAILED ∈ tasks →
        workflowStatus tasks = TaskStatus.FAILED)
    ∧ ((¬ ∃ s, ∀ t ∈ tasks, t = s) → TaskStatus.FAILED ∉ tasks →
        workflowStatus tasks = TaskStatus.RUNNING)
    ∧ workflowStatus [TaskStatus.DONE, TaskStatus.DONE, TaskStatus.DONE] =
        TaskStatus.DONE
    ∧ workflowStatus [TaskStatus.DONE, TaskStatus.RUNNING, TaskStatus.DONE] =
        TaskStatus.RUNNING
    ∧ workflowStatus [TaskStatus.DONE, TaskStatus.FAILED, TaskStatus.RUNNING] =
        TaskStatus.FAILED := by
  refine ⟨?_, ?_, ?_, by decide, by decide, by decide⟩
  · intro s hall
    rw [workflowStatus, get_status, dedup_all_eq tasks s hne hall]
    simp
  · intro hnotall hf
    have hlen : tasks.dedup.length ≠ 1 := by
      intro hlen
      rcases List.length_eq_one.mp hlen with ⟨a, ha⟩
      exact hnotall ⟨a, fun t ht => by
        have : t ∈ tasks.dedup := List.mem_dedup.mpr ht
        rw [ha] at this
        simpa using this⟩
    rw [workflowStatus, get_status, if_neg hlen,
      if_pos (List.mem_dedup.mpr hf)]
  · intro hnotall hf
    have hlen : tasks.dedup.length ≠ 1 := by
      intro hlen
      rcases List.length_eq_one.mp hlen with ⟨a, ha⟩
      exact hnotall ⟨a, fun t ht => by
        have : t ∈ tasks.dedup := List.mem_dedup.mpr ht
        rw [ha] at this
        simpa using this⟩
    have hnf : TaskStatus.FAILED ∉ tasks.dedup := fun hc =>
      hf (List.mem_dedup.mp hc)
    rw [workflowStatus, get_status, if_neg hlen, if_neg hnf]

/-- Witness for C2 at the concrete task list DONE, FAILED, RUNNING. -/
theorem C2_aggregate_status_witness :
    workflowStatus [TaskStatus.DONE, TaskStatus.FAILED, TaskStatus.RUNNING] =
      TaskStatus.FAILED :=
  (C2_aggregate_status
    [TaskStatus.DONE, TaskStatus.FAILED, TaskStatus.RUNNING]
    (by decide)).2.2.2.2.2

/-! ### Errors raised by the embedded code

Each constructor corresponds to one raise site in the sources; the constructor
arguments carry the values interpolated into the Python error message. -/

/-- Errors raised by the embedded drama code. unknownOperator and
operatorExists are the ValueError raises of the registry get_op and put_op;
unknownResource is the NotFound failure of the upstream context;
unknownDataType, invalidSourceFile, invalidDestination are the ValueError
raises of the generic task executor; recursiveNotSpecified is the ValueError
of DockerRun.copy; attributeError models a Python AttributeError for a missing
dataclass attribute; runtimeError models RuntimeError and plain Exception
raises. -/
inductive PyError where
  | unknownOperator (identifier : String)
  | operatorExists (identifier : String)
  | unknownResource (query : String)
  | unknownDataType (uri : String)
  | invalidSourceFile (src : String)
  | invalidDestination (dst : String)
  | recursiveNotSpecified (src : String)
  | attributeError (attr : String)
  | runtimeError (msg : String)
deriving DecidableEq, Repr

/-! ### Operator specification model (drama/core/docker/registry.py) -/

/-- Literal values as they appear in a parsed yaml document (used for operator
parameter defaults, which the registry stores but never computes with). -/
inductive PyLit where
  | str (s : String)
  | int (n : Int)
  | float (q : Rat)
  | bool (b : Bool)
deriving DecidableEq, Repr

/-- The datatype dictionary attached to file specifications. The code under
verification reads only its uri entry. -/
structure DataTypeDoc where
  uri : String
deriving DecidableEq, Repr

/-- Raw entry of the files.inputs list of an operator document. -/
structure InputFileDoc where
  src : String
  dst : String
deriving DecidableEq, Repr

/-- Raw entry of the files.outputs list of an operator document; the label is
optional in the document. -/
structure OutputFileDoc where
  src : String
  datatype : DataTypeDoc
  label : Option String
deriving DecidableEq, Repr

/-- Raw entry of the parameters list of an operator document. -/
structure ParameterDoc where
  name : String
  type : String
  default : Option PyLit
deriving DecidableEq, Repr

/-- Dictionary serialization of an operator specification as read from the
manifest: the mandatory name, image and commands entries and the optional env,
files and parameters entries (absent optional entries are the empty list, as
produced by doc.get with its defaults in DockerOp). -/
structure OpDoc where
  name : String
  image : String
  commands : List String
  env : List (String × String)
  fileInputs : List InputFileDoc
  fileOutputs : List OutputFileDoc
  parameters : List ParameterDoc
deriving DecidableEq, Repr

/-- InputFile dataclass (registry.py): src label and dst path inside the
container. -/
structure InputFile where
  src : String
  dst : String
deriving DecidableEq, Repr

/-- OutputFile dataclass (registry.py): it declares exactly the three fields
src, datatype and label. -/
structure OutputFile where
  src : String
  datatype : DataTypeDoc
  label : String
deriving DecidableEq, Repr

/-- OperatorFiles dataclass (registry.py). -/
structure OperatorFiles where
  inputs : List InputFile
  outputs : List OutputFile
deriving DecidableEq, Repr

/-- OpParameter dataclass (registry.py). -/
structure OpParameter where
  name : String
  type : String
  default : Option PyLit
deriving DecidableEq, Repr

/-- DockerOp (registry.py): wrapper for an operator specification. Retains
the raw document (the _doc attribute) together with the attributes that the
constructor derives from it. The version is optional because register passes
doc.get of the manifest version, which may be absent. -/
structure DockerOp where
  doc : OpDoc
  version : Option String
  name : String
  image : String
  commands : List String
  env : List (String × String)
  files : OperatorFiles
  parameters : List OpParameter
deriving DecidableEq, Repr

/-- Embedding of the DockerOp constructor: reads the mandatory and optional
entries of the document; an output label defaults to the src path when unset. -/
def mkDockerOp (doc : OpDoc) (version : Option String) : DockerOp :=
  { doc := doc
    version := version
    name := doc.name
    image := doc.image
    commands := doc.commands
    env := doc.env
    files :=
      { inputs := doc.fileInputs.map fun o => { src := o.src, dst := o.dst }
        outputs := doc.fileOutputs.map fun o =>
          { src := o.src
            datatype := o.datatype
            label := o.label.getD o.src } }
    parameters := doc.parameters.map fun o =>
      { name := o.name, type := o.type, default := o.default } }

/-! ### Volatile registry (drama/core/docker/registry.py, VolatileRegistry) -/

/-- State of a VolatileRegistry: the _operators dictionary, represented as an
association list with at most one entry per key. -/
abbrev VolatileRegistry := List (String × DockerOp)

/-- Dictionary lookup in the _operators mapping. -/
def regFind (reg : VolatileRegistry) (identifier : String) : Option DockerOp :=
  match reg with
  | [] => none
  | (k, v) :: rest => if k = identifier then some v else regFind rest identifier

/-- Dictionary assignment in the _operators mapping: overwrite the entry for
the key if present, append a new entry otherwise. -/
def regInsert (reg : VolatileRegistry) (identifier : String) (op : DockerOp) :
    VolatileRegistry :=
  match reg with
  | [] => [(identifier, op)]
  | (k, v) :: rest =>
    if k = identifier then (k, op) :: rest
    else (k, v) :: regInsert rest identifier op

/-- VolatileRegistry.get_op: raises ValueError (unknown operator) when the
identifier is not a key of the _operators dictionary. -/
def get_op (reg : VolatileRegistry) (identifier : String) :
    Except PyError DockerOp :=
  match regFind reg identifier with
  | none => .error (.unknownOperator identifier)
  | some op => .ok op

/-- VolatileRegistry.put_op: raises ValueError (operator exists) when the
identifier is already registered and replace is false; otherwise stores
DockerOp of the given spec and version under the identifier. -/
def put_op (reg : VolatileRegistry) (identifier : String)
    (version : Option String) (spec : OpDoc) (replace : Bool) :
    Except PyError VolatileRegistry :=
  if (regFind reg identifier).isSome ∧ ¬ replace then
    .error (.operatorExists identifier)
  else
    .ok (regInsert reg identifier (mkDockerOp spec version))

/-- Looking up the key just inserted returns the inserted operator. -/
theorem regFind_regInsert_self (reg : VolatileRegistry) (identifier : String)
    (op : DockerOp) : regFind (regInsert reg identifier op) identifier = some op := by
  induction reg with
  | nil => simp [regInsert, regFind]
  | cons hd rest ih =>
    obtain ⟨k, v⟩ := hd
    by_cases hk : k = identifier
    · simp [regInsert, regFind, hk]
    · simp [regInsert, regFind, hk, ih]

/-- Inserting one key leaves every present key present. -/
theorem regFind_regInsert_isSome (reg : VolatileRegistry) (i j : String)
    (op : DockerOp) (h : (regFind reg j).isSome) :
    (regFind (regInsert reg i op) j).isSome := by
  induction reg with
  | nil => simp [regFind] at h
  | cons hd rest ih =>
    obtain ⟨k, v⟩ := hd
    by_cases hk : k = i
    · by_cases hkj : k = j <;> simp_all [regInsert, regFind]
    · by_cases hkj : k = j <;> simp_all [regInsert, regFind]

/-- C3: for every registry state, identifier, version and spec, a successful
put_op is observed by get_op as exactly the stored operator specification, and
get_op on an identifier that is not registered fails with the NotFound error
(ValueError unknown operator). -/
theorem C3_put_get_roundtrip (reg : VolatileRegistry) (identifier : String)
    (version : Option String) (spec : OpDoc) (replace : Bool) :
    (∀ reg2, put_op reg identifier version spec replace = .ok reg2 →
      get_op reg2 identifier = .ok (mkDockerOp spec version))
    ∧ (regFind reg identifier = none →
        get_op reg identifier = .error (.unknownOperator identifier)) := by
  constructor
  · intro reg2 h
    rw [put_op] at h
    split at h
    · cases h
    · cases h
      rw [get_op, regFind_regInsert_self]
  · intro h
    rw [get_op, h]

/-- A concrete operator document used by the registry witnesses. -/
def helloDoc : OpDoc :=
  { name := "Hello", image := "img", commands := ["run"], env := [],
    fileInputs := [], fileOutputs := [], parameters := [] }

/-- Witness for C3: put then get of a concrete operator on the empty registry,
and get on the empty registry fails. -/
theorem C3_put_get_roundtrip_witness :
    get_op (regInsert [] "demo.Hello" (mkDockerOp helloDoc (some "0.1")))
        "demo.Hello" = .ok (mkDockerOp helloDoc (some "0.1"))
    ∧ get_op [] "absent" = .error (.unknownOperator "absent") :=
  ⟨(C3_put_get_roundtrip [] "demo.Hello" (some "0.1") helloDoc false).1
      (regInsert [] "demo.Hello" (mkDockerOp helloDoc (some "0.1")))
      rfl,
   (C3_put_get_roundtrip [] "absent" none helloDoc false).2 rfl⟩

/-! ### Persistent registry (drama/core/docker/registry.py, PersistentRegistry)

The MongoDB catalog collection is modelled as a list of documents; find_one
returns the first document matching the opId query, insert_one appends a
document and update_one replaces the fields of the first matching document. -/

/-- Document of the catalog collection: opId, spec and version entries. -/
structure CatalogDoc where
  opId : String
  spec : OpDoc
  version : Option String
deriving DecidableEq, Repr

/-- State of the catalog collection behind a PersistentRegistry. -/
abbrev PersistentCatalog := List CatalogDoc

/-- find_one on the catalog collection with the query on opId: returns the
first matching document. -/
def findOne (cat : PersistentCatalog) (identifier : String) :
    Option CatalogDoc :=
  match cat with
  | [] => none
  | d :: rest => if d.opId = identifier then some d else findOne rest identifier

/-- update_one on the catalog collection with the query on opId: the set
operator replaces the entries of the first matching document. -/
def updateOne (cat : PersistentCatalog) (identifier : String)
    (doc : CatalogDoc) : PersistentCatalog :=
  match cat with
  | [] => []
  | d :: rest =>
    if d.opId == identifier then doc :: rest
    else d :: updateOne rest identifier doc

/-- PersistentRegistry.get_op: find_one on opId; raises ValueError (unknown
operator) when no document matches, else reconstructs the DockerOp from the
stored spec and version. -/
def persistentGetOp (cat : PersistentCatalog) (identifier : String) :
    Except PyError DockerOp :=
  match findOne cat identifier with
  | none => .error (.unknownOperator identifier)
  | some doc => .ok (mkDockerOp doc.spec doc.version)

/-- PersistentRegistry.put_op: builds the document, raises ValueError
(operator exists) when a document with the identifier exists and replace is
false, updates the existing document when replace is true, and inserts a new
document otherwise. -/
def persistentPutOp (cat : PersistentCatalog) (identifier : String)
    (version : Option String) (spec : OpDoc) (replace : Bool) :
    Except PyError PersistentCatalog :=
  let doc : CatalogDoc := { opId := identifier, spec := spec, version := version }
  if (findOne cat identifier).isSome then
    if ¬ replace then .error (.operatorExists identifier)
    else .ok (updateOne cat identifier doc)
  else
    .ok (cat ++ [doc])

/-- After updating the first document matching an identifier with a document
carrying that identifier, find_one returns the new document, provided a match
existed. -/
theorem findOne_updateOne (cat : PersistentCatalog) (identifier : String)
    (doc old : CatalogDoc) (hdoc : doc.opId = identifier)
    (h : findOne cat identifier = some old) :
    findOne (updateOne cat identifier doc) identifier = some doc := by
  induction cat with
  | nil => simp [findOne] at h
  | cons d rest ih =>
    by_cases hd : d.opId = identifier
    · simp [updateOne, findOne, hd, hdoc]
    · rw [findOne] at h
      rw [if_neg hd] at h
      simp only [updateOne, beq_iff_eq, hd, if_false]
      rw [findOne, if_neg hd]
      exact ih h

/-- C4: put_op with replace false on a present identifier fails with
AlreadyExists and leaves the registry observably unchanged, while put_op with
replace true succeeds and the subsequent get_op reflects the new spec — for
the volatile registry (first conjunct) and the persistent registry (second
conjunct). -/
theorem C4_put_op_replace :
    (∀ (reg : VolatileRegistry) (identifier : String) (version : Option String)
        (spec : OpDoc) (old : DockerOp),
      regFind reg identifier = some old →
        put_op reg identifier version spec false =
            .error (.operatorExists identifier)
        ∧ get_op reg identifier = .ok old
        ∧ ∃ reg2, put_op reg identifier version spec true = .ok reg2
            ∧ get_op reg2 identifier = .ok (mkDockerOp spec version))
    ∧ (∀ (cat : PersistentCatalog) (identifier : String)
        (version : Option String) (spec : OpDoc) (old : CatalogDoc),
      findOne cat identifier = some old →
        persistentPutOp cat identifier version spec false =
            .error (.operatorExists identifier)
        ∧ persistentGetOp cat identifier = .ok (mkDockerOp old.spec old.version)
        ∧ ∃ cat2, persistentPutOp cat identifier version spec true = .ok cat2
            ∧ persistentGetOp cat2 identifier = .ok (mkDockerOp spec version)) := by
  constructor
  · intro reg identifier version spec old h
    refine ⟨?_, ?_, ?_⟩
    · rw [put_op, if_pos ⟨by simp [h], Bool.false_ne_true⟩]
    · rw [get_op, h]
    · refine ⟨regInsert reg identifier (mkDockerOp spec version), ?_, ?_⟩
      · rw [put_op]
        simp
      · rw [get_op, regFind_regInsert_self]
  · intro cat identifier version spec old h
    refine ⟨?_, ?_, ?_⟩
    · rw [persistentPutOp]
      simp [h]
    · rw [persistentGetOp, h]
    · refine ⟨updateOne cat identifier
        { opId := identifier, spec := spec, version := version }, ?_, ?_⟩
      · rw [persistentPutOp]
        simp [h]
      · rw [persistentGetOp, findOne_updateOne cat identifier _ old rfl h]

/-- Witness for C4 on a one-entry volatile registry and a one-document
persistent catalog. -/
theorem C4_put_op_replace_witness :
    (put_op
        [("Hello", mkDockerOp
            { name := "Hello", image := "img", commands := ["run"], env := [],
              fileInputs := [], fileOutputs := [], parameters := [] } none)]
        "Hello" none
        { name := "Hello", image := "img2", commands := ["run2"], env := [],
          fileInputs := [], fileOutputs := [], parameters := [] }
        false = .error (.operatorExists "Hello"))
    ∧ (persistentPutOp
        [{ opId := "Hello",
           spec := { name := "Hello", image := "img", commands := ["run"],
                     env := [], fileInputs := [], fileOutputs := [],
                     parameters := [] },
           version := none }]
        "Hello" none
        { name := "Hello", image := "img2", commands := ["run2"], env := [],
          fileInputs := [], fileOutputs := [], parameters := [] }
        false = .error (.operatorExists "Hello")) :=
  ⟨(C4_put_op_replace.1
      [("Hello", mkDockerOp
          { name := "Hello", image := "img", commands := ["run"], env := [],
            fileInputs := [], fileOutputs := [], parameters := [] } none)]
      "Hello" none
      { name := "Hello", image := "img2", commands := ["run2"], env := [],
        fileInputs := [], fileOutputs := [], parameters := [] }
      (mkDockerOp
        { name := "Hello", image := "img", commands := ["run"], env := [],
          fileInputs := [], fileOutputs := [], parameters := [] } none)
      rfl).1,
   (C4_put_op_replace.2
      [{ opId := "Hello",
         spec := { name := "Hello", image := "img", commands := ["run"],
                   env := [], fileInputs := [], fileOutputs := [],
                   parameters := [] },
         version := none }]
      "Hello" none
      { name := "Hello", image := "img2", commands := ["run2"], env := [],
        fileInputs := [], fileOutputs := [], parameters := [] }
      { opId := "Hello",
        spec := { name := "Hello", image := "img", commands := ["run"],
                  env := [], fileInputs := [], fileOutputs := [],
                  parameters := [] },
        version := none }
      rfl).1⟩

/-! ### Operator registration (drama/core/docker/registry.py, OpRegistry.register)

register clones the source, parses the manifest document, builds any declared
Docker images through the external image builder (a collaborator with no
effect on the registry state), and calls put_op for every declared operator.
The parsed manifest document is modelled directly; the namespace key of the
manifest is called nspace here because namespace is a reserved word in Lean. -/

/-- A Docker image build directive of the manifest; building is delegated to
the external docker_build collaborator and does not touch the registry. -/
structure DockerImageDoc where
  tag : String
deriving DecidableEq, Repr

/-- Parsed manifest document (drama.yaml): optional version and namespace,
image build directives and the list of operator specifications. -/
structure Manifest where
  version : Option String
  nspace : Option String
  dockerImages : List DockerImageDoc
  operators : List OpDoc
deriving DecidableEq, Repr

/-- Python truthiness of the optional namespace string: None and the empty
string are falsy, every other string is truthy. -/
def pyTruthy (s : Option String) : Bool :=
  match s with
  | none => false
  | some v => v ≠ ""

/-- The operator identifier computed in register: the f-string
namespace.name when the namespace value is truthy, the bare name otherwise. -/
def opIdentifier (ns : Option String) (name : String) : String :=
  match ns with
  | none => name
  | some v => if pyTruthy (some v) then v ++ "." ++ name else name

/-- The loop body of register over the declared operators: computes each
identifier, calls put_op, and accumulates the registered identifiers in
declaration order. A put_op failure propagates out of register. -/
def registerOps (reg : VolatileRegistry) (version : Option String)
    (ns : Option String) (ops : List OpDoc) (replace : Bool) :
    Except PyError (VolatileRegistry × List String) :=
  match ops with
  | [] => .ok (reg, [])
  | obj :: rest =>
    match put_op reg (opIdentifier ns obj.name) version obj replace with
    | .error e => .error e
    | .ok reg2 =>
      match registerOps reg2 version ns rest replace with
      | .error e => .error e
      | .ok (reg3, ids) => .ok (reg3, opIdentifier ns obj.name :: ids)

/-- OpRegistry.register for the volatile registry, over an already parsed
manifest: reads the optional version and namespace of the document and
registers every declared operator. -/
def register (reg : VolatileRegistry) (doc : Manifest) (replace : Bool) :
    Except PyError (VolatileRegistry × List String) :=
  registerOps reg doc.version doc.nspace doc.operators replace

/-- Registered identifiers stay present through the rest of the loop. -/
theorem registerOps_preserves (reg : VolatileRegistry)
    (version : Option String) (ns : Option String) (ops : List OpDoc)
    (replace : Bool) (reg2 : VolatileRegistry) (ids : List String)
    (h : registerOps reg version ns ops replace = .ok (reg2, ids))
    (j : String) (hj : (regFind reg j).isSome) : (regFind reg2 j).isSome := by
  induction ops generalizing reg ids with
  | nil =>
    rw [registerOps] at h
    cases h
    exact hj
  | cons obj rest ih =>
    rw [registerOps] at h
    cases hput : put_op reg (opIdentifier ns obj.name) version obj replace with
    | error e =>
      simp only [hput] at h
      cases h
    | ok regI =>
      simp only [hput] at h
      cases hrec : registerOps regI version ns rest replace with
      | error e =>
        simp only [hrec] at h
        cases h
      | ok p =>
        obtain ⟨reg3, ids3⟩ := p
        simp only [hrec] at h
        cases h
        have hI : (regFind regI j).isSome := by
          rw [put_op] at hput
          split at hput
          · cases hput
          · cases hput
            exact regFind_regInsert_isSome reg _ j _ hj
        exact ih regI ids3 hrec hI

/-- The identifiers returned by a successful registerOps are the identifiers
computed for the declared operators, in order, and each of them is present in
the resulting registry. -/
theorem registerOps_ids (reg : VolatileRegistry) (version : Option String)
    (ns : Option String) (ops : List OpDoc) (replace : Bool)
    (reg2 : VolatileRegistry) (ids : List String)
    (h : registerOps reg version ns ops replace = .ok (reg2, ids)) :
    ids = ops.map (fun obj => opIdentifier ns obj.name)
    ∧ ∀ i ∈ ids, (regFind reg2 i).isSome := by
  induction ops generalizing reg ids with
  | nil =>
    rw [registerOps] at h
    cases h
    exact ⟨rfl, by intro i hi; cases hi⟩
  | cons obj rest ih =>
    rw [registerOps] at h
    cases hput : put_op reg (opIdentifier ns obj.name) version obj replace with
    | error e =>
      simp only [hput] at h
      cases h
    | ok regI =>
      simp only [hput] at h
      cases hrec : registerOps regI version ns rest replace with
      | error e =>
        simp only [hrec] at h
        cases h
      | ok p =>
        obtain ⟨reg3, ids3⟩ := p
        simp only [hrec] at h
        cases h
        obtain ⟨hmap, hmem⟩ := ih regI ids3 hrec
        refine ⟨by rw [List.map_cons, hmap], ?_⟩
        intro i hi
        rcases List.mem_cons.mp hi with rfl | hi
        · have hI : (regFind regI (opIdentifier ns obj.name)).isSome := by
            rw [put_op] at hput
            split at hput
            · cases hput
            · cases hput
              simp [regFind_regInsert_self]
          exact registerOps_preserves regI version ns rest replace reg2 ids3
            hrec _ hI
        · exact hmem i hi

/-- C9 counterexample: a manifest that declares the namespace as the empty
string registers its operator Hello under the bare identifier Hello, not
under the dotted identifier that prefixing the declared namespace would give. -/
theorem C9_counterexample :
    (register []
      { version := none, nspace := some "", dockerImages := [],
        operators := [{ name := "Hello", image := "img", commands := ["run"],
                        env := [], fileInputs := [], fileOutputs := [],
                        parameters := [] }] }
      false :
      Except PyError (VolatileRegistry × List String)).map Prod.snd =
        .ok ["Hello"]
    ∧ "Hello" ≠ "" ++ "." ++ "Hello" := by
  constructor
  · rfl
  · decide

/-- C9 (amended): for every successful register of a manifest, the returned
identifiers are, in declaration order, namespace.name when the manifest
declares a non-empty namespace and the bare operator name otherwise (namespace
absent or empty), and every returned identifier is registered; in particular
the identifier for namespace demo and operator name Hello is demo.Hello. -/
theorem C9_register_identifiers (reg : VolatileRegistry) (m : Manifest)
    (replace : Bool) (reg2 : VolatileRegistry) (ids : List String)
    (h : register reg m replace = .ok (reg2, ids)) :
    ids = m.operators.map (fun obj => opIdentifier m.nspace obj.name)
    ∧ (∀ i ∈ ids, (regFind reg2 i).isSome)
    ∧ (∀ name, ∀ v, v ≠ "" → opIdentifier (some v) name = v ++ "." ++ name)
    ∧ (∀ name, opIdentifier none name = name ∧ opIdentifier (some "") name = name)
    ∧ opIdentifier (some "demo") "Hello" = "demo.Hello" := by
  obtain ⟨hmap, hmem⟩ :=
    registerOps_ids reg m.version m.nspace m.operators replace reg2 ids h
  refine ⟨hmap, hmem, ?_, ?_, rfl⟩
  · intro name v hv
    simp [opIdentifier, pyTruthy, hv]
  · intro name
    exact ⟨rfl, by simp [opIdentifier, pyTruthy]⟩

/-- Witness for C9 at a concrete manifest with namespace demo and operator
name Hello registered into the empty registry. -/
theorem C9_register_identifiers_witness :
    ["demo.Hello"] =
      ([{ name := "Hello", image := "img", commands := ["run"], env := [],
          fileInputs := [], fileOutputs := [], parameters := [] }] :
        List OpDoc).map (fun obj => opIdentifier (some "demo") obj.name) :=
  (C9_register_identifiers []
    { version := none, nspace := some "demo", dockerImages := [],
      operators := [{ name := "Hello", image := "img", commands := ["run"],
                      env := [], fileInputs := [], fileOutputs := [],
                      parameters := [] }] }
    false
    [("demo.Hello", mkDockerOp
        { name := "Hello", image := "img", commands := ["run"], env := [],
          fileInputs := [], fileOutputs := [], parameters := [] } none)]
    ["demo.Hello"] rfl).1

/-! ### Docker run sandbox (drama/core/docker/run.py)

DockerRun.exec launches one container per command through the Docker client.
The container runtime is the external collaborator: it is modelled as a
function from the launch index to the observed outcome of that launch, which
is either a wait status code together with the captured combined output of
the container (possibly empty), or one of the exceptions ContainerError,
ImageNotFound, APIError raised by the client during the launch. The volume
bindings are computed once before the loop and passed unchanged to every
launch; env, the remove flag and the running-container registry bookkeeping
do not influence the returned result object and are not modelled. -/

/-- Volume bindings of a DockerRun: local folder to container target path. -/
abbrev Volumes := List (String × String)

/-- A Docker client exception (ContainerError, ImageNotFound or APIError).
The trace field records the output of base.stacktrace for the exception: the
formatting of the traceback is done by the Python runtime, so the formatted
lines are carried as data of the exception value. -/
structure DockerException where
  trace : List String
deriving DecidableEq, Repr

/-- Embedding of stacktrace from drama/core/docker/base.py at its interface:
the list of formatted stack trace lines for an exception. -/
def stacktrace (ex : DockerException) : List String :=
  ex.trace

/-- Observed outcome of one container launch: the container ran and finished
with a status code and captured output, or the client raised. -/
inductive LaunchOutcome where
  | ran (statusCode : Int) (logs : String)
  | raised (ex : DockerException)

/-- One container launch performed by exec: the call to
client.containers.run with the image, a single command and the volume map. -/
structure Launch where
  image : String
  command : String
  volumes : Volumes
deriving DecidableEq, Repr

/-- ExecResult dataclass (run.py): return code, ordered log entries and the
optional captured exception. -/
structure ExecResult where
  returncode : Int
  logs : List String
  exception : Option DockerException
deriving DecidableEq, Repr

/-- ExecResult.is_success: the return code is zero. -/
def ExecResult.is_success (r : ExecResult) : Bool :=
  r.returncode == 0

/-- ExecResult.is_error: the return code is non-zero. -/
def ExecResult.is_error (r : ExecResult) : Bool :=
  r.returncode != 0

/-- The command loop of DockerRun.exec. For each command a container is
launched; on an exception the formatted stack trace is appended to the logs,
the exception is stored, the return code becomes 1 and the loop is left. On a
normal finish the captured output is appended to the logs only when it is
non-empty, and a non-zero status code becomes the return code and stops the
loop. Returns the result object together with the launches performed. -/
def execLoop (runtime : Nat → LaunchOutcome) (image : String)
    (volumes : Volumes) (commands : List String) (idx : Nat)
    (acc : ExecResult) (launches : List Launch) : ExecResult × List Launch :=
  match commands with
  | [] => (acc, launches)
  | cmd :: rest =>
    let launches2 := launches ++ [{ image := image, command := cmd,
                                    volumes := volumes }]
    match runtime idx with
    | .raised ex =>
      ({ acc with
          logs := acc.logs ++ [String.intercalate "\n" (stacktrace ex)]
          exception := some ex
          returncode := 1 }, launches2)
    | .ran statusCode logs =>
      if statusCode != 0 then
        ({ (if logs != "" then { acc with logs := acc.logs ++ [logs] } else acc)
            with returncode := statusCode }, launches2)
      else
        execLoop runtime image volumes rest (idx + 1)
          (if logs != "" then { acc with logs := acc.logs ++ [logs] } else acc)
          launches2

/-- DockerRun.exec: runs the commands sequentially with a fresh result object
whose return code starts at zero. -/
def DockerRun.exec (runtime : Nat → LaunchOutcome) (image : String)
    (commands : List String) (volumes : Volumes) : ExecResult × List Launch :=
  execLoop runtime image volumes commands 0
    { returncode := 0, logs := [], exception := none } []
/-- Characterization of the command loop when the first k launches finish
with status zero and launch k finishes with a non-zero status: the loop stops
after launch k, the return code is that status, exactly the non-empty outputs
of the k + 1 launches are appended in launch order, and exactly the first
k + 1 commands are launched, each against the same volume bindings. -/
theorem execLoop_stop (runtime : Nat → LaunchOutcome) (image : String)
    (volumes : Volumes) (status : Nat → Int) (out : Nat → String) :
    ∀ (k : Nat) (commands : List String) (idx : Nat) (acc : ExecResult)
      (launches : List Launch),
    k < commands.length →
    (∀ j, j ≤ k → runtime (idx + j) = .ran (status (idx + j)) (out (idx + j))) →
    (∀ j, j < k → status (idx + j) = 0) →
    status (idx + k) ≠ 0 →
    execLoop runtime image volumes commands idx acc launches =
      ({ returncode := status (idx + k)
         logs := acc.logs ++
           (((List.range (k + 1)).map (fun j => out (idx + j))).filter
             (fun s => s != ""))
         exception := acc.exception },
       launches ++ (commands.take (k + 1)).map
         (fun c => { image := image, command := c, volumes := volumes })) := by
  intro k
  induction k with
  | zero =>
    intro commands idx acc launches hk hr hzero hfail
    cases commands with
    | nil => simp at hk
    | cons cmd rest =>
      rw [execLoop]
      have h0 := hr 0 (Nat.le_refl 0)
      rw [Nat.add_zero] at h0
      rw [h0]
      have hfail2 : (status idx != 0) = true := by
        have h1 : status (idx + 0) ≠ 0 := hfail
        rw [Nat.add_zero] at h1
        simpa using h1
      by_cases ho : out idx = ""
      · simp [hfail2, ho, List.filter]
      · have hob : (out idx != "") = true := by simpa using ho
        simp [hfail2, hob, List.filter]
  | succ k ih =>
    intro commands idx acc launches hk hr hzero hfail
    cases commands with
    | nil => simp at hk
    | cons cmd rest =>
      rw [execLoop]
      have h0 := hr 0 (Nat.zero_le _)
      rw [Nat.add_zero] at h0
      rw [h0]
      have hz0 : status idx = 0 := by
        have h1 := hzero 0 (Nat.succ_pos k)
        rw [Nat.add_zero] at h1
        exact h1
      have hz0f : (status idx != 0) = false := by simp [hz0]
      simp only [hz0f, Bool.false_eq_true, if_false]
      have hrec := ih rest (idx + 1)
        (if (out idx != "") = true then
          { acc with logs := acc.logs ++ [out idx] } else acc)
        (launches ++ [{ image := image, command := cmd, volumes := volumes }])
        (by
          have h2 : k + 1 < rest.length + 1 := by simpa using hk
          omega)
        (fun j hj => by
          have h2 := hr (j + 1) (Nat.succ_le_succ hj)
          rwa [show idx + (j + 1) = idx + 1 + j from by omega] at h2)
        (fun j hj => by
          have h2 := hzero (j + 1) (Nat.succ_lt_succ hj)
          rwa [show idx + (j + 1) = idx + 1 + j from by omega] at h2)
        (by
          have h2 := hfail
          rwa [show idx + (k + 1) = idx + 1 + k from by omega] at h2)
      rw [hrec]
      have hrange : ((List.range (k + 1 + 1)).map (fun j => out (idx + j))) =
          out idx ::
            ((List.range (k + 1)).map (fun j => out (idx + 1 + j))) := by
        rw [List.range_succ_eq_map]
        simp only [List.map_cons, List.map_map, Nat.add_zero]
        congr 1
        apply List.map_congr_left
        intro j hj
        simp only [Function.comp_apply]
        congr 1
        omega
      have hstat : status (idx + 1 + k) = status (idx + (k + 1)) := by
        congr 1
        omega
      by_cases ho : out idx = ""
      · simp [ho, hrange, List.filter, hstat]
      · have hob : (out idx != "") = true := by simpa using ho
        simp [hrange, List.filter, hob, hstat]

/-- Characterization of the command loop when the first k launches finish
with status zero and launch k raises ContainerError, ImageNotFound or
APIError: the loop is left with return code 1, the exception is stored, the
joined formatted stack trace is appended as the final log entry after the
non-empty outputs of the earlier launches, and exactly the first k + 1
commands are launched. -/
theorem execLoop_raised (runtime : Nat → LaunchOutcome) (image : String)
    (volumes : Volumes) (status : Nat → Int) (out : Nat → String)
    (ex : DockerException) :
    ∀ (k : Nat) (commands : List String) (idx : Nat) (acc : ExecResult)
      (launches : List Launch),
    k < commands.length →
    (∀ j, j < k → runtime (idx + j) = .ran (status (idx + j)) (out (idx + j))) →
    (∀ j, j < k → status (idx + j) = 0) →
    runtime (idx + k) = .raised ex →
    execLoop runtime image volumes commands idx acc launches =
      ({ returncode := 1
         logs := acc.logs ++
           (((List.range k).map (fun j => out (idx + j))).filter
             (fun s => s != "")) ++
           [String.intercalate "\n" (stacktrace ex)]
         exception := some ex },
       launches ++ (commands.take (k + 1)).map
         (fun c => { image := image, command := c, volumes := volumes })) := by
  intro k
  induction k with
  | zero =>
    intro commands idx acc launches hk hr hzero hex
    cases commands with
    | nil => simp at hk
    | cons cmd rest =>
      rw [execLoop]
      have h0 := hex
      rw [Nat.add_zero] at h0
      rw [h0]
      simp [List.range_zero]
  | succ k ih =>
    intro commands idx acc launches hk hr hzero hex
    cases commands with
    | nil => simp at hk
    | cons cmd rest =>
      rw [execLoop]
      have h0 := hr 0 (Nat.succ_pos k)
      rw [Nat.add_zero] at h0
      rw [h0]
      have hz0 : status idx = 0 := by
        have h1 := hzero 0 (Nat.succ_pos k)
        rw [Nat.add_zero] at h1
        exact h1
      have hz0f : (status idx != 0) = false := by simp [hz0]
      simp only [hz0f, Bool.false_eq_true, if_false]
      have hrec := ih rest (idx + 1)
        (if (out idx != "") = true then
          { acc with logs := acc.logs ++ [out idx] } else acc)
        (launches ++ [{ image := image, command := cmd, volumes := volumes }])
        (by
          have h2 : k + 1 < rest.length + 1 := by simpa using hk
          omega)
        (fun j hj => by
          have h2 := hr (j + 1) (Nat.succ_lt_succ hj)
          rwa [show idx + (j + 1) = idx + 1 + j from by omega] at h2)
        (fun j hj => by
          have h2 := hzero (j + 1) (Nat.succ_lt_succ hj)
          rwa [show idx + (j + 1) = idx + 1 + j from by omega] at h2)
        (by
          have h2 := hex
          rwa [show idx + (k + 1) = idx + 1 + k from by omega] at h2)
      rw [hrec]
      have hrange : ((List.range (k + 1)).map (fun j => out (idx + j))) =
          out idx ::
            ((List.range k).map (fun j => out (idx + 1 + j))) := by
        rw [List.range_succ_eq_map]
        simp only [List.map_cons, List.map_map, Nat.add_zero]
        congr 1
        apply List.map_congr_left
        intro j hj
        simp only [Function.comp_apply]
        congr 1
        omega
      by_cases ho : out idx = ""
      · simp [ho, hrange, List.filter]
      · have hob : (out idx != "") = true := by simpa using ho
        simp [hrange, List.filter, hob]

/-- Launch outcomes of a no-op image running the commands exit 0, exit 1,
exit 0: each container runs, produces no output on standard output or
standard error, and finishes with the exit status named by its command. -/
def noopRuntime : Nat → LaunchOutcome :=
  fun i => if i = 0 then .ran 0 "" else .ran 1 ""

/-- C1 counterexample: running exit 0, exit 1, exit 0 against a no-op image
whose containers produce no output gives returncode 1 and two launches as the
claim states, but the logs contain zero entries, not exactly two — exec
appends a log entry only when the captured container output is non-empty. -/
theorem C1_counterexample :
    (DockerRun.exec noopRuntime "noop" ["exit 0", "exit 1", "exit 0"]
      []).1.returncode = 1
    ∧ (DockerRun.exec noopRuntime "noop" ["exit 0", "exit 1", "exit 0"]
      []).2.length = 2
    ∧ (DockerRun.exec noopRuntime "noop" ["exit 0", "exit 1", "exit 0"]
      []).1.logs.length ≠ 2
    ∧ (DockerRun.exec noopRuntime "noop" ["exit 0", "exit 1", "exit 0"]
      []).1.logs = [] := by
  refine ⟨by decide, by decide, by decide, by decide⟩

/-- C1 (amended): DockerRun.exec runs the command strings in list order, each
as a separate container launch against the same volume bindings, and stops at
the first command whose wait status is non-zero, never launching any later
command; the result logs contain, in launch order, one entry per launched
container whose captured output is non-empty — a launched container with
empty output contributes no log entry, so for the exit 0, exit 1, exit 0
command list against a no-op image the result has returncode 1, exactly the
first two commands are launched, and the logs are empty. -/
theorem C1_exec_fail_fast (runtime : Nat → LaunchOutcome) (image : String)
    (volumes : Volumes) (commands : List String) (status : Nat → Int)
    (out : Nat → String) (k : Nat) (hk : k < commands.length)
    (hr : ∀ j, j ≤ k → runtime j = .ran (status j) (out j))
    (hzero : ∀ j, j < k → status j = 0) (hfail : status k ≠ 0) :
    DockerRun.exec runtime image commands volumes =
      ({ returncode := status k
         logs := ((List.range (k + 1)).map out).filter (fun s => s != "")
         exception := none },
       (commands.take (k + 1)).map
         (fun c => { image := image, command := c, volumes := volumes })) := by
  rw [DockerRun.exec]
  have h := execLoop_stop runtime image volumes status out k commands 0
    { returncode := 0, logs := [], exception := none } [] hk
    (fun j hj => by simpa using hr j hj)
    (fun j hj => by simpa using hzero j hj)
    (by simpa using hfail)
  simpa using h

/-- Witness for C1 at the concrete no-op run of exit 0, exit 1, exit 0. -/
theorem C1_exec_fail_fast_witness :
    DockerRun.exec noopRuntime "noop" ["exit 0", "exit 1", "exit 0"] [] =
      ({ returncode := 1, logs := [], exception := none },
       [{ image := "noop", command := "exit 0", volumes := [] },
        { image := "noop", command := "exit 1", volumes := [] }]) := by
  have h := C1_exec_fail_fast noopRuntime "noop" []
    ["exit 0", "exit 1", "exit 0"]
    (fun i => if i = 0 then 0 else 1) (fun _ => "") 1
    (by decide)
    (fun j hj => by interval_cases j <;> rfl)
    (fun j hj => by
      have hj0 : j = 0 := by omega
      subst hj0
      rfl)
    (by decide)
  rw [h]
  decide

/-- C6: when a launch inside DockerRun.exec raises ContainerError,
ImageNotFound or APIError (the earlier launches having finished with status
zero), the exception is caught and not propagated: the returned ExecResult
has returncode 1, carries the exception in its exception field, and has the
joined formatted stack trace of the exception appended as the final log
entry, so the caller always receives a completed ExecResult. -/
theorem C6_exec_absorbs_runtime_errors (runtime : Nat → LaunchOutcome)
    (image : String) (volumes : Volumes) (commands : List String)
    (status : Nat → Int) (out : Nat → String) (ex : DockerException) (k : Nat)
    (hk : k < commands.length)
    (hr : ∀ j, j < k → runtime j = .ran (status j) (out j))
    (hzero : ∀ j, j < k → status j = 0)
    (hex : runtime k = .raised ex) :
    (DockerRun.exec runtime image commands volumes).1.returncode = 1
    ∧ (DockerRun.exec runtime image commands volumes).1.exception = some ex
    ∧ (DockerRun.exec runtime image commands volumes).1.logs =
        ((List.range k).map out).filter (fun s => s != "") ++
          [String.intercalate "\n" (stacktrace ex)] := by
  rw [DockerRun.exec]
  have h := execLoop_raised runtime image volumes status out ex k commands 0
    { returncode := 0, logs := [], exception := none } [] hk
    (fun j hj => by simpa using hr j hj)
    (fun j hj => by simpa using hzero j hj)
    (by simpa using hex)
  rw [h]
  simp

/-- Witness for C6: a run whose single launch raises an exception with a
concrete formatted trace. -/
theorem C6_exec_absorbs_runtime_errors_witness :
    (DockerRun.exec (fun _ => .raised { trace := ["Traceback", "boom"] })
        "img" ["run"] []).1.returncode = 1
    ∧ (DockerRun.exec (fun _ => .raised { trace := ["Traceback", "boom"] })
        "img" ["run"] []).1.exception =
          some { trace := ["Traceback", "boom"] }
    ∧ (DockerRun.exec (fun _ => .raised { trace := ["Traceback", "boom"] })
        "img" ["run"] []).1.logs =
        (((List.range 0).map (fun _ => "")).filter (fun s => s != "")) ++
          [String.intercalate "\n"
            (stacktrace { trace := ["Traceback", "boom"] })] :=
  C6_exec_absorbs_runtime_errors
    (fun _ => .raised { trace := ["Traceback", "boom"] }) "img" [] ["run"]
    (fun _ => 0) (fun _ => "") { trace := ["Traceback", "boom"] } 0
    (by decide)
    (fun j hj => absurd hj (Nat.not_lt_zero j))
    (fun j hj => absurd hj (Nat.not_lt_zero j))
    rfl

/-! ### DockerRun.copy (drama/core/docker/run.py) -/

/-- Classification of the filesystem object that a source path references. -/
inductive FsEntry where
  | file
  | directory
  | missing
deriving DecidableEq, Repr

/-- A copy performed by DockerRun.copy: shutil.copy2 for a single file or
shutil.copytree for a directory tree. -/
inductive CopyAction where
  | copy2 (src dst : String)
  | copytree (src dst : String)
deriving DecidableEq, Repr

/-- Path name of a path expression: its final component. -/
def pathName (s : String) : String :=
  (s.splitOn "/").getLastD s

/-- DockerRun.localpath: a path relative to the run base directory. -/
def localpath (basedir : String) (dst : String) : String :=
  basedir ++ "/" ++ dst

/-- Observable outcome of DockerRun.copy: the computed target path (whose
parent directory is created before the source is classified), the copy that
was performed, if any, and the error raised, if any. -/
structure CopyResult where
  target : String
  performed : Option CopyAction
  error : Option PyError
deriving DecidableEq, Repr

/-- DockerRun.copy (run.py): the target defaults to the name of the source
path when dst is not given, the parent directory of the target is created,
then a source that is a file is copied with shutil.copy2, a source that is
not a file is copied with shutil.copytree when the recursive flag is set, and
otherwise ValueError (recursive not specified for directory) is raised with
no copy performed. -/
def DockerRun.copy (basedir : String) (src : String) (srcKind : FsEntry)
    (dst : Option String) (recursive : Bool) : CopyResult :=
  let dstName := match dst with | some d => d | none => pathName src
  let target := localpath basedir dstName
  if srcKind = .file then
    { target := target, performed := some (.copy2 src target), error := none }
  else if recursive then
    { target := target, performed := some (.copytree src target),
      error := none }
  else
    { target := target, performed := none,
      error := some (.recursiveNotSpecified src) }

/-- C10: for every source that references a directory, copy without the
recursive flag fails with the InvalidArgument error (ValueError, recursive
not specified) and performs no copy; with the recursive flag the directory is
copied into the sandbox at the target path; and for every source that
references a file the file is copied to the path dst relative to the sandbox
base directory. -/
theorem C10_copy_recursive_flag (basedir src : String) (dst : Option String)
    (d : String) :
    ((DockerRun.copy basedir src .directory dst false).error =
        some (.recursiveNotSpecified src)
      ∧ (DockerRun.copy basedir src .directory dst false).performed = none)
    ∧ ((DockerRun.copy basedir src .directory dst true).performed =
        some (.copytree src
          (DockerRun.copy basedir src .directory dst true).target)
      ∧ (DockerRun.copy basedir src .directory dst true).error = none)
    ∧ ((DockerRun.copy basedir src .file (some d) false).performed =
        some (.copy2 src (localpath basedir d))
      ∧ (DockerRun.copy basedir src .file (some d) false).target =
        localpath basedir d
      ∧ (DockerRun.copy basedir src .file (some d) false).error = none) :=
  ⟨⟨rfl, rfl⟩, ⟨rfl, rfl⟩, ⟨rfl, rfl, rfl⟩⟩

/-! ### String helpers for the generic task executor

Python substring containment and prefix tests, written over the character
lists of the strings so that the needed facts can be proved by structural
induction. -/

/-- Whether the first character list starts with the second. -/
def listStartsWith : List Char → List Char → Bool
  | _, [] => true
  | [], _ :: _ => false
  | a :: s, b :: p => a = b && listStartsWith s p

/-- Python substring containment of the pattern in the second list. -/
def listHasSub (p : List Char) : List Char → Bool
  | [] => listStartsWith [] p
  | c :: t => listStartsWith (c :: t) p || listHasSub p t

/-- Python containment test sub in s. -/
def pyIn (sub s : String) : Bool :=
  listHasSub sub.toList s.toList

/-- Python str.startswith. -/
def pyStartsWith (s p : String) : Bool :=
  listStartsWith s.toList p.toList

/-- Starting with p and p starting with q implies starting with q. -/
theorem listStartsWith_trans (q : List Char) :
    ∀ (s p : List Char), listStartsWith s p = true →
      listStartsWith p q = true → listStartsWith s q = true := by
  induction q with
  | nil =>
    intro s p h1 h2
    cases s <;> rfl
  | cons b qt ih =>
    intro s p h1 h2
    cases p with
    | nil => exact absurd h2 (by rw [listStartsWith]; simp)
    | cons a pt =>
      cases s with
      | nil => exact absurd h1 (by rw [listStartsWith]; simp)
      | cons c st =>
        rw [listStartsWith] at h1 h2 ⊢
        simp only [Bool.and_eq_true, decide_eq_true_eq] at h1 h2 ⊢
        exact ⟨h1.1.trans h2.1, ih st pt h1.2 h2.2⟩

/-- A substring of a prefix of s is a substring of s. -/
theorem listHasSub_of_startsWith (sub : List Char) :
    ∀ (s p : List Char), listStartsWith s p = true →
      listHasSub sub p = true → listHasSub sub s = true := by
  intro s
  induction s generalizing sub with
  | nil =>
    intro p h1 h2
    cases p with
    | nil => exact h2
    | cons a pt => exact absurd h1 (by rw [listStartsWith]; simp)
  | cons c st ih =>
    intro p h1 h2
    cases p with
    | nil =>
      cases sub with
      | nil => rw [listHasSub]; simp [listStartsWith]
      | cons x xt => exact absurd h2 (by rw [listHasSub, listStartsWith]; simp)
    | cons a pt =>
      rw [listStartsWith] at h1
      simp only [Bool.and_eq_true, decide_eq_true_eq] at h1
      rw [listHasSub] at h2
      rw [listHasSub]
      rcases Bool.or_eq_true_iff.mp h2 with h2 | h2
      · have : listStartsWith (c :: st) sub = true :=
          listStartsWith_trans sub (c :: st) (a :: pt)
            (by rw [listStartsWith]; simp [h1.1, h1.2]) h2
        simp [this]
      · have : listHasSub sub st = true := ih sub pt h1.2 h2
        simp [this]

/-! ### Generic task executor (drama/core/docker/exec.py) -/

/-- Resource handle of the storage layer: a wrapper around a resource path. -/
structure Resource where
  resource : String
deriving DecidableEq, Repr

/-- An upstream result document as read by copy_input_file: the uri of its
json-serialized datatype and its resource path. -/
structure UpstreamDoc where
  datatypeUri : String
  resource : String
deriving DecidableEq, Repr

/-- The process state visible to the generic executor: the label-keyed
upstream context of the workflow run, and the get_file and put_file
operations of the storage facade, which are external collaborators modelled
as functions returning the resource handle of the requested or stored file. -/
structure ProcessCtx where
  context : List (String × UpstreamDoc)
  get_file : String → Resource
  put_file : String → String → Resource

/-- Modelled from the spec: Process.upstream_one (drama/process.py is not
among the sources; the test double PCS.upstream_one in
drama/core/docker/tests/process.py implements the same contract): the
upstream context is queried by label, and the lookup fails with NotFound
when the label was not produced earlier in the run. -/
def upstream_one (pcs : ProcessCtx) (query : String) :
    Except PyError UpstreamDoc :=
  match pcs.context.find? (fun p => p.1 == query) with
  | some p => .ok p.2
  | none => .error (.unknownResource query)

/-- The TextFile ontology uri recognized by copy_input_file. -/
def textFileUri : String :=
  "http://www.ontologies.khaos.uma.es/bigowl/TextFile"

/-- copy_input_file (exec.py): resolves the src of a declared input binding.
A src without the scheme separator is a label resolved from the upstream
context; a resolved document of the TextFile datatype yields its resource,
fetched through the storage facade when the resource path is a minio
reference, and any other datatype raises ValueError (unknown data type). A
src with the store scheme prefix is loaded from the global data store. Every
other src containing the scheme separator raises ValueError (invalid source
file specification). The resolved resource is afterwards copied into the run
directory at the dst of the binding through DockerRun.copy. -/
def copy_input_file (pcs : ProcessCtx) (file : InputFile) :
    Except PyError Resource :=
  if pyIn "::" file.src = false then
    match upstream_one pcs file.src with
    | .error e => .error e
    | .ok doc =>
      if doc.datatypeUri = textFileUri then
        .ok { resource :=
          if pyStartsWith doc.resource "minio://" = true then
            (pcs.get_file doc.resource).resource
          else doc.resource }
      else .error (.unknownDataType doc.datatypeUri)
  else if pyStartsWith file.src "store::" = true then
    .ok (pcs.get_file (file.src.drop "store::".length))
  else .error (.invalidSourceFile file.src)

/-- A string with the store scheme prefix contains the scheme separator. -/
theorem pyIn_colons_of_store (src : String)
    (h : pyStartsWith src "store::" = true) : pyIn "::" src = true :=
  listHasSub_of_startsWith ("::".toList) (src.toList) ("store::".toList) h
    (by decide)

/-- A concrete process context with one upstream TextFile result under the
label names, and storage operations that return the requested path. -/
def ctx0 : ProcessCtx :=
  { context := [("names",
      { datatypeUri := textFileUri, resource := "/data/names.txt" })]
    get_file := fun s => { resource := s }
    put_file := fun _ d => { resource := d } }

/-- C5 counterexample: an input binding whose src carries the rundir scheme
prefix is not resolved against the per-run directory: copy_input_file raises
ValueError (invalid source file specification) on it, and the context and
url prefixes fail the same way. -/
theorem C5_counterexample :
    copy_input_file ctx0
        { src := "rundir::results/out.csv", dst := "data/out.csv" } =
      .error (.invalidSourceFile "rundir::results/out.csv")
    ∧ copy_input_file ctx0 { src := "context::names", dst := "d" } =
      .error (.invalidSourceFile "context::names")
    ∧ copy_input_file ctx0 { src := "url::http/x", dst := "d" } =
      .error (.invalidSourceFile "url::http/x") := by
  refine ⟨rfl, rfl, rfl⟩

/-- C5 (amended): for every declared input binding processed by the generic
task executor, a src that is a plain label (no scheme separator) is resolved
from the upstream context and fails with MissingInput (NotFound) when the
label was not produced earlier in the run, while a label resolved to a
TextFile document yields that document resource; a src with the store scheme
prefix is resolved against the global catalog store; and a src with any
other scheme prefix — the rundir, context and url prefixes included — fails
with InvalidReference (invalid source file specification). -/
theorem C5_input_resolution (pcs : ProcessCtx) (file : InputFile) :
    (pyIn "::" file.src = false →
      pcs.context.find? (fun p => p.1 == file.src) = none →
      copy_input_file pcs file = .error (.unknownResource file.src))
    ∧ (∀ p, pyIn "::" file.src = false →
        pcs.context.find? (fun p2 => p2.1 == file.src) = some p →
        p.2.datatypeUri = textFileUri →
        pyStartsWith p.2.resource "minio://" = false →
        copy_input_file pcs file = .ok { resource := p.2.resource })
    ∧ (pyStartsWith file.src "store::" = true →
        copy_input_file pcs file =
          .ok (pcs.get_file (file.src.drop "store::".length)))
    ∧ (pyIn "::" file.src = true →
        pyStartsWith file.src "store::" = false →
        copy_input_file pcs file = .error (.invalidSourceFile file.src)) := by
  refine ⟨?_, ?_, ?_, ?_⟩
  · intro h1 h2
    simp [copy_input_file, upstream_one, h1, h2]
  · intro p h1 h2 huri hmin
    simp [copy_input_file, upstream_one, h1, h2, huri, hmin]
  · intro h
    have hcol : pyIn "::" file.src = true := pyIn_colons_of_store file.src h
    simp [copy_input_file, hcol, h]
  · intro h1 h2
    simp [copy_input_file, h1, h2]

/-- Witness for C5: a missing label fails with NotFound, a store reference
resolves through the storage facade, and a url reference fails with the
invalid source file error. -/
theorem C5_input_resolution_witness :
    copy_input_file ctx0 { src := "missing", dst := "d" } =
      .error (.unknownResource "missing")
    ∧ copy_input_file ctx0 { src := "store::f.txt", dst := "d" } =
      .ok (ctx0.get_file (("store::f.txt" : String).drop "store::".length))
    ∧ copy_input_file ctx0 { src := "url::http/x", dst := "d" } =
      .error (.invalidSourceFile "url::http/x") :=
  ⟨(C5_input_resolution ctx0 { src := "missing", dst := "d" }).1 rfl rfl,
   (C5_input_resolution ctx0 { src := "store::f.txt", dst := "d" }).2.2.1 rfl,
   (C5_input_resolution ctx0 { src := "url::http/x", dst := "d" }).2.2.2
     rfl rfl⟩

/-! ### Output handling of the generic task executor (drama/core/docker/exec.py) -/

/-- Attribute values readable from an OutputFile dataclass instance. -/
inductive PyAttr where
  | strVal (s : String)
  | dictVal (d : DataTypeDoc)
deriving DecidableEq, Repr

/-- Python getattr on an OutputFile value: the OutputFile dataclass declares
exactly the fields src, datatype and label (registry.py), so attribute
access succeeds on those three names and raises AttributeError on every
other name. -/
def OutputFile.getattr (f : OutputFile) (attr : String) :
    Except PyError PyAttr :=
  if attr = "src" then .ok (.strVal f.src)
  else if attr = "datatype" then .ok (.dictVal f.datatype)
  else if attr = "label" then .ok (.strVal f.label)
  else .error (.attributeError attr)

/-- handle_result_file (exec.py): computes the sandbox path of the produced
file from the src attribute of the output specification, then branches on
the dst attribute — but dst is not among the fields declared by the
OutputFile dataclass, so that access raises AttributeError before any
resource is produced. The transcription of the remaining statements (the
store and rundir destination branches, the no-destination branch whose dst
reference is unbound in the source, and the tags loop, which would access
the equally undeclared tags attribute) is unreachable. -/
def handle_result_file (pcs : ProcessCtx) (runBasedir localDir : String)
    (f : OutputFile) : Except PyError Resource :=
  match OutputFile.getattr f "src" with
  | .error e => .error e
  | .ok _ =>
    match OutputFile.getattr f "dst" with
    | .error e => .error e
    | .ok dstv =>
      match dstv with
      | .dictVal _ => .error (.runtimeError "unreachable")
      | .strVal dst =>
        match
          (if dst != "" then
            if pyStartsWith dst "store::" = true then
              .ok (pcs.put_file (localpath runBasedir f.src)
                (dst.drop "store::".length))
            else if pyStartsWith dst "rundir::" = true then
              .ok { resource :=
                localpath localDir (dst.drop "rundir::".length) }
            else .error (.invalidDestination dst)
          else .error (.runtimeError "NameError") :
            Except PyError Resource) with
        | .error e => .error e
        | .ok resource =>
          match OutputFile.getattr f "tags" with
          | .error e => .error e
          | .ok _ => .ok resource

/-- handle_result_file always raises AttributeError for the dst attribute. -/
theorem handle_result_file_raises (pcs : ProcessCtx)
    (runBasedir localDir : String) (f : OutputFile) :
    handle_result_file pcs runBasedir localDir f =
      .error (.attributeError "dst") := by
  simp [handle_result_file, OutputFile.getattr]

/-- The output persistence loop of execute: handle_result_file for every
declared output file, accumulating the returned resource handles. -/
def persistOutputs (pcs : ProcessCtx) (runBasedir localDir : String) :
    List OutputFile → Except PyError (List Resource)
  | [] => .ok []
  | f :: rest =>
    match handle_result_file pcs runBasedir localDir f with
    | .error e => .error e
    | .ok r =>
      match persistOutputs pcs runBasedir localDir rest with
      | .error e => .error e
      | .ok rs => .ok (r :: rs)

/-- TaskResult carrying the resource handles of the output files. -/
structure TaskResult where
  files : List Resource
deriving DecidableEq, Repr

/-- The input copy loop of execute. -/
def copyInputs (pcs : ProcessCtx) :
    List InputFile → Except PyError (List Resource)
  | [] => .ok []
  | f :: rest =>
    match copy_input_file pcs f with
    | .error e => .error e
    | .ok r =>
      match copyInputs pcs rest with
      | .error e => .error e
      | .ok rs => .ok (r :: rs)

/-- execute (exec.py): resolves the operator specification from the
registry, copies the declared inputs into a fresh run directory, substitutes
the resolved parameter values into the command templates (parameter
resolution and template substitution are abstracted as a function on command
strings, which can only widen the set of successful runs), executes the
commands in the Docker container, raises a plain Exception carrying the
joined logs when the run was not successful, and otherwise persists every
declared output through handle_result_file before erasing the run directory
and returning the TaskResult; the volume bindings established by bind_dirs
are a filesystem effect with no influence on the result object and enter the
model as the empty binding list. -/
def execute (reg : VolatileRegistry) (pcs : ProcessCtx)
    (runBasedir localDir : String) (op : String) (substCmd : String → String)
    (runtime : Nat → LaunchOutcome) : Except PyError TaskResult :=
  match get_op reg op with
  | .error e => .error e
  | .ok task =>
    match copyInputs pcs task.files.inputs with
    | .error e => .error e
    | .ok _ =>
      if ((DockerRun.exec runtime task.image (task.commands.map substCmd)
          []).1).is_success = false then
        .error (.runtimeError (String.intercalate "\n"
          ((DockerRun.exec runtime task.image (task.commands.map substCmd)
            []).1).logs))
      else
        match persistOutputs pcs runBasedir localDir task.files.outputs with
        | .error e => .error e
        | .ok files => .ok { files := files }

/-- C8: handle_result_file accesses the dst attribute on the OutputFile
value, but the OutputFile dataclass defines only src, datatype and label, so
handle_result_file always raises AttributeError before any declared output
resource is returned; consequently execute never returns a TaskResult for an
operator specification that declares at least one output file. -/
theorem C8_output_handling_always_raises (pcs : ProcessCtx)
    (runBasedir localDir : String) :
    (∀ f : OutputFile, handle_result_file pcs runBasedir localDir f =
      .error (.attributeError "dst"))
    ∧ (∀ (reg : VolatileRegistry) (op : String) (substCmd : String → String)
        (runtime : Nat → LaunchOutcome) (task : DockerOp),
      get_op reg op = .ok task → task.files.outputs ≠ [] →
      ∀ tr : TaskResult,
        execute reg pcs runBasedir localDir op substCmd runtime ≠
          .ok tr) := by
  constructor
  · exact handle_result_file_raises pcs runBasedir localDir
  · intro reg op substCmd runtime task hget houts tr hok
    simp only [execute, hget] at hok
    cases hci : copyInputs pcs task.files.inputs with
    | error e =>
      rw [hci] at hok
      exact Except.noConfusion hok
    | ok rs =>
      rw [hci] at hok
      by_cases hs : ((DockerRun.exec runtime task.image
          (task.commands.map substCmd) []).1).is_success = false
      · rw [if_pos hs] at hok
        exact Except.noConfusion hok
      · rw [if_neg hs] at hok
        cases houts2 : task.files.outputs with
        | nil => exact houts houts2
        | cons f rest =>
          rw [houts2] at hok
          rw [persistOutputs,
            handle_result_file_raises pcs runBasedir localDir f] at hok
          exact Except.noConfusion hok

/-- A concrete output specification document for the C8 witness. -/
def outDoc0 : OutputFileDoc :=
  { src := "results/out.csv", datatype := { uri := "uri0" }, label := none }

/-- A concrete operator document declaring one output file. -/
def opDoc8 : OpDoc :=
  { name := "Op8", image := "img", commands := ["run"], env := [],
    fileInputs := [], fileOutputs := [outDoc0], parameters := [] }

/-- A registry holding the one-output operator. -/
def reg8 : VolatileRegistry := [("Op8", mkDockerOp opDoc8 none)]

/-- Witness for C8: the attribute error on a concrete output file, and the
impossibility of a successful execute for the concrete one-output operator. -/
theorem C8_output_handling_always_raises_witness :
    handle_result_file ctx0 "base" "local"
      { src := "results/out.csv", datatype := { uri := "uri0" },
        label := "out" } = .error (.attributeError "dst")
    ∧ execute reg8 ctx0 "base" "local" "Op8" id (fun _ => .ran 0 "") ≠
        .ok { files := [] } :=
  ⟨(C8_output_handling_always_raises ctx0 "base" "local").1
      { src := "results/out.csv", datatype := { uri := "uri0" },
        label := "out" },
   (C8_output_handling_always_raises ctx0 "base" "local").2 reg8 "Op8" id
     (fun _ => .ran 0 "") (mkDockerOp opDoc8 none) rfl
     (by simp [mkDockerOp, opDoc8, outDoc0]) { files := [] }⟩

/-! ### Workflow monitoring (drama/worker/monitor.py)

run submits the workflow and then polls the task store; each poll yields a
snapshot of the task list. The snapshots observed by the successive polls
are the environment of the loop and are modelled as a finite list; revoke is
the external dispatch collaborator, so the model counts its invocations. -/

/-- A task document as observed by the monitor: its name, status, and the
message of its result document. -/
structure MTask where
  name : String
  status : TaskStatus
  message : String
deriving DecidableEq, Repr

/-- Outcome of the monitor loop: a raised RuntimeError carrying a failing
task result message, a normal return of the observed task list, or the
exhaustion of the observed snapshots while the workflow was still active
(the Python loop would simply keep polling). -/
inductive MonitorOutcome where
  | raised (msg : String)
  | returned (tasks : List MTask)
  | stillPolling
deriving DecidableEq, Repr

/-- Whether a revocation task is recorded among the observed tasks: the
membership test of RevokeExecution in the task names. -/
def hasRevokeTask (tasks : List MTask) : Bool :=
  tasks.any (fun t => t.name == "RevokeExecution")

/-- The scan of one polled task list: walks the tasks in order with the
is_done flag starting true; the first FAILED task breaks the scan, and every
other task that is not DONE clears the is_done flag. Returns the failing
task, when one was reached, and the value of is_done at the end of the walk
or at the break. -/
def scanTasks : List MTask → Bool → Option MTask × Bool
  | [], is_done => (none, is_done)
  | t :: rest, is_done =>
    if t.status = TaskStatus.FAILED then (some t, is_done)
    else if t.status ≠ TaskStatus.DONE then scanTasks rest false
    else scanTasks rest is_done

/-- One iteration of the monitor loop over a polled task list: on the first
FAILED task the workflow revoke is triggered unless a revocation task is
already recorded among the tasks, then with raise_error set a RuntimeError
carrying the failing task result message is raised; without raise_error the
for loop breaks and falls through to the is_done check. Without a FAILED
task the iteration returns the tasks when all of them are DONE. The Nat
component counts the revoke invocations of the iteration. -/
def pollStep (tasks : List MTask) (raise_error : Bool) :
    Nat × Option MonitorOutcome :=
  match scanTasks tasks true with
  | (some t, is_done) =>
    let revokes := if hasRevokeTask tasks then 0 else 1
    if raise_error then (revokes, some (.raised t.message))
    else if is_done then (revokes, some (.returned tasks))
    else (revokes, none)
  | (none, is_done) =>
    if is_done then (0, some (.returned tasks))
    else (0, none)

/-- run (monitor.py) over the finite list of task snapshots delivered by the
successive polls: applies pollStep to each snapshot until the loop raises or
returns, accumulating the number of revoke invocations. -/
def runMonitor : List (List MTask) → Bool → Nat × MonitorOutcome
  | [], _ => (0, .stillPolling)
  | tasks :: later, raise_error =>
    match pollStep tasks raise_error with
    | (r, some outcome) => (r, outcome)
    | (r, none) =>
      let p := runMonitor later raise_error
      (r + p.1, p.2)

/-- A scan of a task list without FAILED tasks reaches the end, and is_done
records whether the flag was set and every task is DONE. -/
theorem scanTasks_no_failed (s : List MTask)
    (h : ∀ u ∈ s, u.status ≠ TaskStatus.FAILED) :
    ∀ d, scanTasks s d =
      (none, d && s.all (fun u => u.status == TaskStatus.DONE)) := by
  induction s with
  | nil => intro d; simp [scanTasks]
  | cons u rest ih =>
    intro d
    have hu : u.status ≠ TaskStatus.FAILED := h u (List.mem_cons_self u rest)
    have ihrest := ih (fun v hv => h v (List.mem_cons_of_mem u hv))
    rw [scanTasks, if_neg hu]
    by_cases hd : u.status = TaskStatus.DONE
    · rw [if_neg (not_not_intro hd), ihrest d]
      simp [hd]
    · rw [if_pos hd, ihrest false]
      have : (u.status == TaskStatus.DONE) = false := by
        simp [hd]
      simp [this]

/-- A scan of a task list whose first FAILED task is t stops at t. -/
theorem scanTasks_first_failed (b : List MTask) (t : MTask)
    (ht : t.status = TaskStatus.FAILED) :
    ∀ (a : List MTask), (∀ u ∈ a, u.status ≠ TaskStatus.FAILED) →
      ∀ d, ∃ d2, scanTasks (a ++ t :: b) d = (some t, d2) := by
  intro a
  induction a with
  | nil =>
    intro ha d
    exact ⟨d, by rw [List.nil_append, scanTasks, if_pos ht]⟩
  | cons u rest ih =>
    intro ha d
    have hu : u.status ≠ TaskStatus.FAILED := ha u (List.mem_cons_self u rest)
    have ihrest := ih (fun v hv => ha v (List.mem_cons_of_mem u hv))
    rw [List.cons_append, scanTasks, if_neg hu]
    by_cases hd : u.status = TaskStatus.DONE
    · rw [if_neg (not_not_intro hd)]
      exact ihrest d
    · rw [if_pos hd]
      exact ihrest false

/-- C7: for every monitored workflow run with raise_error set in which some
poll observes a FAILED task (the polls before it observing neither a FAILED
task nor an all-DONE task list), run raises the RuntimeError carrying the
first failing task result message before returning, and across the whole
monitoring loop revoke is invoked exactly once when no revocation task is
recorded in the observed task list — and not at all when a revocation task
is already recorded. -/
theorem C7_monitor_raises_and_revokes_once (t : MTask)
    (ht : t.status = TaskStatus.FAILED) (b : List MTask) :
    ∀ (pre later : List (List MTask)) (a : List MTask),
    (∀ s ∈ pre, (∀ u ∈ s, u.status ≠ TaskStatus.FAILED) ∧
      (∃ u ∈ s, u.status ≠ TaskStatus.DONE)) →
    (∀ u ∈ a, u.status ≠ TaskStatus.FAILED) →
    ((hasRevokeTask (a ++ t :: b) = false →
      runMonitor (pre ++ (a ++ t :: b) :: later) true =
        (1, .raised t.message))
    ∧ (hasRevokeTask (a ++ t :: b) = true →
      runMonitor (pre ++ (a ++ t :: b) :: later) true =
        (0, .raised t.message))) := by
  intro pre
  induction pre with
  | nil =>
    intro later a hpre ha
    obtain ⟨d2, hscan⟩ := scanTasks_first_failed b t ht a ha true
    constructor
    · intro hrv
      rw [List.nil_append, runMonitor, pollStep, hscan]
      simp [hrv]
    · intro hrv
      rw [List.nil_append, runMonitor, pollStep, hscan]
      simp [hrv]
  | cons s pre2 ih =>
    intro later a hpre ha
    have hs := hpre s (List.mem_cons_self s pre2)
    have hpre2 : ∀ s2 ∈ pre2, (∀ u ∈ s2, u.status ≠ TaskStatus.FAILED) ∧
        (∃ u ∈ s2, u.status ≠ TaskStatus.DONE) :=
      fun s2 hs2 => hpre s2 (List.mem_cons_of_mem s hs2)
    have hall : s.all (fun u => u.status == TaskStatus.DONE) = false := by
      obtain ⟨u, hu, hnd⟩ := hs.2
      by_contra hc
      rw [Bool.not_eq_false] at hc
      exact hnd (by simpa using List.all_eq_true.mp hc u hu)
    have hstep : pollStep s true = (0, none) := by
      rw [pollStep, scanTasks_no_failed s hs.1 true]
      simp [hall]
    have ihp := ih later a hpre2 ha
    constructor
    · intro hrv
      rw [List.cons_append, runMonitor, hstep, ihp.1 hrv]
      rfl
    · intro hrv
      rw [List.cons_append, runMonitor, hstep, ihp.2 hrv]
      rfl

/-- The failing task observed by the C7 witness. -/
def failTask0 : MTask :=
  { name := "task2", status := TaskStatus.FAILED, message := "boom" }

/-- Witness for C7 at a single poll observing one FAILED task named task2
with result message boom and no recorded revocation task. -/
theorem C7_monitor_raises_and_revokes_once_witness :
    runMonitor [[failTask0]] true = (1, .raised "boom") :=
  (C7_monitor_raises_and_revokes_once failTask0 rfl [] [] [] []
    (fun s hs => absurd hs (List.not_mem_nil s))
    (fun u hu => absurd hu (List.not_mem_nil u))).1 rfl

end Drama
